import Mathlib

/-!
Shallow embedding of the conveyor-belt alignment monitor frontend
(src/frontend/src/App.js, main variant: the full upload/video/webcam
application).  Pure fragments of the JavaScript become Lean functions;
the React state becomes explicit records with the event handlers as
state-transition functions.
-/

/-- The canonical normalized measurement record built by sendFrame
(the object called safeData in the source). -/
structure MeasurementRecord where
  alignment_offset_pixels : ℚ
  alignment_offset_mm : ℚ
  status : String
  timestamp : ℚ
  deriving DecidableEq, Repr

/-- The backend response body as received; every field may be absent
(JavaScript undefined / null), which the nullish-coalescing operator
in sendFrame then defaults. -/
structure AnalysisResponse where
  alignment_offset_pixels : Option ℚ
  alignment_offset_mm : Option ℚ
  status : Option String
  deriving DecidableEq, Repr

/-- The normalization step of sendFrame (App.js lines 127-132):
`response.data?.field ?? default` for each field. -/
def normalizeResponse (data : AnalysisResponse) (timestamp : ℚ) : MeasurementRecord :=
  { alignment_offset_pixels := data.alignment_offset_pixels.getD 0
    alignment_offset_mm := data.alignment_offset_mm.getD 0
    status := data.status.getD "UNKNOWN"
    timestamp := timestamp }

/-- History capacity: `.slice(0, 20)` in sendFrame. -/
def historyCapacity : Nat := 20

/-- The history update inside sendFrame (App.js lines 137-140):
`[safeData, ...prev].slice(0, 20)`. -/
def pushHistory (r : MeasurementRecord) (prev : List MeasurementRecord) : List MeasurementRecord :=
  (r :: prev).take historyCapacity

/-- Iterated pushes, oldest first, starting from the empty history. -/
def pushAllHistory (recs : List MeasurementRecord) : List MeasurementRecord :=
  recs.foldl (fun acc r => pushHistory r acc) []

/-- Measured-line stroke color in drawOverlay (App.js lines 186-188):
CRITICAL and WARNING get red and orange, everything else gets lime. -/
def overlayLineColor (status : String) : String :=
  if status = "CRITICAL" then "red"
  else if status = "WARNING" then "orange"
  else "lime"

/-- getStatusColor (App.js lines 271-276), used for the status badge and
the history entries. -/
def getStatusColor (status : String) : String :=
  if status = "CRITICAL" then "#ff4444"
  else if status = "WARNING" then "#ffaa00"
  else if status = "OK" then "#00ff88"
  else "#888888"

/-- Intrinsic dimensions of the decoded frame image. -/
structure ImageDims where
  width : ℚ
  height : ℚ
  deriving DecidableEq, Repr

/-- What one call of drawOverlay paints, geometry and color
(App.js lines 155-206). -/
structure OverlayRender where
  surfaceWidth : ℚ
  surfaceHeight : ℚ
  centerX : ℚ
  detectedX : ℚ
  measuredLineColor : String
  deriving DecidableEq, Repr

/-- drawOverlay (App.js lines 155-206), the geometry/color core:
the canvas is resized to the frame image dimensions on every call,
centerX is canvas.width / 2, detectedX is
centerX + (data.alignment_offset_pixels || 0) where the JavaScript
|| replaces the falsy number 0 by 0. -/
def drawOverlay (data : MeasurementRecord) (img : ImageDims) : OverlayRender :=
  let canvasWidth := img.width
  let canvasHeight := img.height
  let centerX := canvasWidth / 2
  let detectedX := centerX +
    (if data.alignment_offset_pixels = 0 then 0 else data.alignment_offset_pixels)
  { surfaceWidth := canvasWidth
    surfaceHeight := canvasHeight
    centerX := centerX
    detectedX := detectedX
    measuredLineColor := overlayLineColor data.status }

/-- Session state touched by sendFrame: the result record, the rolling
history, the loading flag, and the last overlay painted. -/
structure SessionState where
  result : Option MeasurementRecord
  analysisHistory : List MeasurementRecord
  loading : Bool
  lastOverlay : Option OverlayRender
  deriving DecidableEq, Repr

/-- setLoading(true) at the top of sendFrame. -/
def sendFrameBegin (s : SessionState) : SessionState :=
  { s with loading := true }

/-- The try/catch body of sendFrame.  The outcome is some response when
the POST resolves with data, none when the transport fails (network
error, timeout, non-2xx): then the catch block only logs and no state
is updated. -/
def sendFrameBody (outcome : Option AnalysisResponse) (timestamp : ℚ) (img : ImageDims)
    (s : SessionState) : SessionState :=
  match outcome with
  | some data =>
    let safeData := normalizeResponse data timestamp
    { s with
      result := some safeData
      analysisHistory := pushHistory safeData s.analysisHistory
      lastOverlay := some (drawOverlay safeData img) }
  | none => s

/-- setLoading(false) after the try/catch, reached on both paths. -/
def sendFrameEnd (s : SessionState) : SessionState :=
  { s with loading := false }

/-- One complete call of sendFrame (App.js lines 116-149). -/
def sendFrame (outcome : Option AnalysisResponse) (timestamp : ℚ) (img : ImageDims)
    (s : SessionState) : SessionState :=
  sendFrameEnd (sendFrameBody outcome timestamp img (sendFrameBegin s))

/-- Session-state part of resetVideo (App.js lines 253-265):
setResult(null), setAnalysisHistory([]). -/
def resetVideoSession (s : SessionState) : SessionState :=
  { s with result := none, analysisHistory := [] }

/-- Session-state part of handleVideoChange (App.js lines 24-43):
setResult(null), setAnalysisHistory([]). -/
def handleVideoChangeSession (s : SessionState) : SessionState :=
  { s with result := none, analysisHistory := [] }

/-- The displayed result coincides with the newest history entry. -/
def resultIsNewest (s : SessionState) : Prop :=
  s.result = s.analysisHistory.head?

-- Helper lemmas about the bounded history.

theorem take_append_take (A B : List MeasurementRecord) (n : Nat) :
    (A ++ B.take n).take n = (A ++ B).take n := by
  rw [List.take_append_eq_append_take, List.take_append_eq_append_take, List.take_take]
  rw [Nat.min_eq_left (Nat.sub_le n A.length)]

theorem pushHistory_foldl (recs : List MeasurementRecord) (h : List MeasurementRecord)
    (hh : h.length ≤ historyCapacity) :
    recs.foldl (fun acc r => pushHistory r acc) h = (recs.reverse ++ h).take historyCapacity := by
  induction recs generalizing h with
  | nil =>
    simp [List.take_of_length_le hh]
  | cons r rs ih =>
    rw [List.foldl_cons]
    rw [ih (pushHistory r h) (by simp [pushHistory])]
    show (rs.reverse ++ (r :: h).take historyCapacity).take historyCapacity = _
    rw [take_append_take]
    simp [List.append_assoc]

-- Mode / timer state machine.

/-- The acquisition mode state: the string state variable mode in App.js. -/
inductive Mode
  | upload
  | video
  | webcam
  deriving DecidableEq, Repr

/-- One media track of the acquired camera stream. -/
structure Track where
  stopped : Bool
  deriving DecidableEq, Repr

/-- track.stop(): stopping is total, also on an already stopped track. -/
def Track.stop (_t : Track) : Track :=
  { stopped := true }

/-- Application state relevant to the mode machine and the sampling
timers.  playIntervals counts the intervals created by
startFrameCapture whose clearInterval closure was returned to the
caller; analyzeCalls counts invocations of captureAndAnalyzeFrame. -/
structure AppState where
  mode : Mode
  streaming : Bool
  isPlaying : Bool
  videoUrl : Bool
  videoPaused : Bool
  webcamStream : Option (List Track)
  playIntervals : Nat
  analyzeCalls : Nat
  deriving DecidableEq, Repr

/-- Whether the video element is mounted (videoRef.current non-null):
the JSX renders it when (mode is video or upload) and a videoUrl is
set, or in webcam mode (App.js lines 356-371). -/
def videoMounted (s : AppState) : Bool :=
  if ((s.mode = Mode.video ∨ s.mode = Mode.upload) ∧ s.videoUrl = true)
      ∨ s.mode = Mode.webcam then true else false

/-- Whether the interval installed by the sampling useEffect
(App.js lines 233-247) is alive: its cleanup clears it whenever the
guard condition no longer holds after a dependency change. -/
def effectTimerActive (s : AppState) : Bool :=
  if (s.mode = Mode.webcam ∧ s.streaming = true)
      ∨ (s.mode = Mode.video ∧ s.isPlaying = true ∧ videoMounted s = true)
    then true else false

/-- Initial state: mode upload, nothing streaming or playing, no video
loaded, no timers, no calls yet. -/
def initialAppState : AppState :=
  { mode := Mode.upload
    streaming := false
    isPlaying := false
    videoUrl := false
    videoPaused := true
    webcamStream := none
    playIntervals := 0
    analyzeCalls := 0 }

/-- setMode("upload") from the mode-selection button. -/
def selectUploadMode (s : AppState) : AppState :=
  { s with mode := Mode.upload }

/-- setMode("video") from the mode-selection button. -/
def selectVideoMode (s : AppState) : AppState :=
  { s with mode := Mode.video }

/-- App-state part of handleVideoChange (App.js lines 24-43): a valid
video file is selected and an object URL is installed. -/
def handleVideoChange (s : AppState) : AppState :=
  { s with videoUrl := true }

/-- startFrameCapture (App.js lines 221-231): bails out when
videoRef.current is null, otherwise installs a 1000 ms interval and
returns a clearInterval closure that its only caller, handleVideoPlay,
discards, so the interval is never cleared. -/
def startFrameCapture (s : AppState) : AppState :=
  if videoMounted s = true then { s with playIntervals := s.playIntervals + 1 } else s

/-- handleVideoPlay (App.js lines 212-215): the video starts playing,
setIsPlaying(true), then startFrameCapture(). -/
def handleVideoPlay (s : AppState) : AppState :=
  startFrameCapture { s with isPlaying := true, videoPaused := false }

/-- handleVideoPause (App.js lines 217-219): setIsPlaying(false); the
element itself is now paused. -/
def handleVideoPause (s : AppState) : AppState :=
  { s with isPlaying := false, videoPaused := true }

/-- startWebcam (App.js lines 49-59) given the outcome of
getUserMedia: on success the stream with its tracks is attached and
played, setStreaming(true), setMode("webcam"); on failure the catch
block only alerts and no state changes. -/
def startWebcam (acquired : Option (List Track)) (s : AppState) : AppState :=
  match acquired with
  | some tracks =>
    { s with
      webcamStream := some tracks
      videoPaused := false
      streaming := true
      mode := Mode.webcam }
  | none => s

/-- stopWebcam (App.js lines 61-68): stop every track of the held
stream when there is one, then setStreaming(false), setMode("upload"). -/
def stopWebcam (s : AppState) : AppState :=
  let s' :=
    match s.webcamStream with
    | some tracks => { s with webcamStream := some (tracks.map Track.stop) }
    | none => s
  { s' with streaming := false, mode := Mode.upload }

/-- App-state part of resetVideo (App.js lines 253-265): the object URL
is revoked and cleared, setIsPlaying(false); the video element
unmounts. -/
def resetVideo (s : AppState) : AppState :=
  { s with videoUrl := false, isPlaying := false }

/-- Number of not yet stopped tracks of the held camera stream. -/
def activeTrackCount (s : AppState) : Nat :=
  match s.webcamStream with
  | some tracks => tracks.countP (fun t => !t.stopped)
  | none => 0

/-- Advancing time by one cadence period (1000 ms).  Every leaked
startFrameCapture interval fires its callback, which calls
captureAndAnalyzeFrame only when videoRef.current is non-null and the
video is not paused; the useEffect interval, when alive, calls it
unconditionally in webcam mode and under a not-paused guard in video
mode. -/
def tick (s : AppState) : AppState :=
  let playCalls :=
    if videoMounted s = true ∧ s.videoPaused = false then s.playIntervals else 0
  let effectCalls :=
    if effectTimerActive s = true then
      if s.mode = Mode.webcam then 1
      else if s.videoPaused = false then 1 else 0
    else 0
  { s with analyzeCalls := s.analyzeCalls + playCalls + effectCalls }

/-- Advancing time by n cadence periods. -/
def ticks (n : Nat) (s : AppState) : AppState :=
  Nat.rec s (fun _ acc => tick acc) n

-- Concrete fixtures used by witnesses.

/-- A fully populated sample record. -/
def sampleRecord : MeasurementRecord :=
  { alignment_offset_pixels := 12, alignment_offset_mm := 3, status := "OK", timestamp := 0 }

/-- A 640 by 480 frame. -/
def sampleImg : ImageDims :=
  { width := 640, height := 480 }

/-- Fresh session state on mount. -/
def initialSession : SessionState :=
  { result := none, analysisHistory := [], loading := false, lastOverlay := none }

/-- A record carrying its index as pixel offset. -/
def witnessRecord (i : Nat) : MeasurementRecord :=
  { alignment_offset_pixels := (i : ℚ), alignment_offset_mm := 0, status := "OK", timestamp := 0 }

/-- Twenty-one distinct records, more than the capacity. -/
def witnessRecs : List MeasurementRecord :=
  (List.range 21).map witnessRecord

/-- A response carrying an unrecognized status label. -/
def malformedResponse : AnalysisResponse :=
  { alignment_offset_pixels := none, alignment_offset_mm := none, status := some "MISALIGNED" }

/-- State reached by selecting video mode, loading a file, pressing
play, and then clicking the Upload Image mode button while the video
keeps playing. -/
def modeExitTrace : AppState :=
  selectUploadMode (handleVideoPlay (handleVideoChange (selectVideoMode initialAppState)))

/-- State holding a live two-track camera stream. -/
def webcamSession : AppState :=
  startWebcam (some [{ stopped := false }, { stopped := false }]) initialAppState

-- Claim theorems.

/-- C1: when the remote analysis call fails, sendFrame pushes no
history entry and leaves the overlay and result unchanged: after a
successful tick with record R and then a failing tick, the result and
the newest history entry still equal R, the history is untouched, and
the last rendered overlay is untouched. -/
theorem C1_transport_failure_preserves_display
    (data : AnalysisResponse) (ts ts2 : ℚ) (img img2 : ImageDims) (s : SessionState) :
    (sendFrame none ts2 img2 (sendFrame (some data) ts img s)).result
        = some (normalizeResponse data ts)
    ∧ (sendFrame none ts2 img2 (sendFrame (some data) ts img s)).analysisHistory.head?
        = some (normalizeResponse data ts)
    ∧ (sendFrame none ts2 img2 (sendFrame (some data) ts img s)).lastOverlay
        = (sendFrame (some data) ts img s).lastOverlay
    ∧ (sendFrame none ts2 img2 (sendFrame (some data) ts img s)).analysisHistory
        = (sendFrame (some data) ts img s).analysisHistory :=
  ⟨rfl, rfl, rfl, rfl⟩

/-- C2: pushHistory prepends the new record and truncates to the
capacity 20, the length never exceeds 20, and N pushes with N above
the capacity leave exactly 20 entries, newest first, oldest evicted. -/
theorem C2_history_capacity (r : MeasurementRecord) (h : List MeasurementRecord)
    (recs : List MeasurementRecord) (hlen : historyCapacity < recs.length) :
    (pushHistory r h).length ≤ historyCapacity
    ∧ (pushHistory r h).head? = some r
    ∧ pushHistory r h = (r :: h).take historyCapacity
    ∧ pushAllHistory recs = recs.reverse.take historyCapacity
    ∧ (pushAllHistory recs).length = historyCapacity := by
  have hall : pushAllHistory recs = recs.reverse.take historyCapacity := by
    have := pushHistory_foldl recs [] (by simp [historyCapacity])
    simpa [pushAllHistory] using this
  refine ⟨?_, rfl, rfl, hall, ?_⟩
  · simp [pushHistory]
  · rw [hall]
    simp
    omega

/-- C2 witness: pushing 21 records leaves the newest 20. -/
theorem C2_history_capacity_witness :
    historyCapacity < witnessRecs.length
    ∧ pushAllHistory witnessRecs = witnessRecs.reverse.take historyCapacity
    ∧ (pushAllHistory witnessRecs).length = historyCapacity :=
  have hlen : historyCapacity < witnessRecs.length := by
    simp [witnessRecs, historyCapacity]
  ⟨hlen,
   (C2_history_capacity (witnessRecord 0) [] witnessRecs hlen).2.2.2.1,
   (C2_history_capacity (witnessRecord 0) [] witnessRecs hlen).2.2.2.2⟩

/-- C3 counterexample: a reachable response whose status field is
present but unrecognized is not replaced by UNKNOWN; sendFrame keeps
the label MISALIGNED verbatim, refuting the claim that an unrecognized
status is normalized to UNKNOWN. -/
theorem C3_unrecognized_status_counterexample :
    (normalizeResponse malformedResponse 0).status = "MISALIGNED"
    ∧ (normalizeResponse malformedResponse 0).status ≠ "UNKNOWN"
    ∧ "MISALIGNED" ≠ "OK" ∧ "MISALIGNED" ≠ "WARNING" ∧ "MISALIGNED" ≠ "CRITICAL" := by
  refine ⟨rfl, ?_, ?_, ?_, ?_⟩ <;> decide

/-- C3 amended: the record is always fully populated; a missing
alignment_offset_pixels becomes 0, a missing alignment_offset_mm
becomes 0 and a missing status becomes UNKNOWN, while any present
field, recognized or not, passes through unchanged. -/
theorem C3_default_filling (ts p m : ℚ) (st : String) :
    normalizeResponse
        { alignment_offset_pixels := none, alignment_offset_mm := none, status := none } ts
      = { alignment_offset_pixels := 0, alignment_offset_mm := 0,
          status := "UNKNOWN", timestamp := ts }
    ∧ normalizeResponse
        { alignment_offset_pixels := some p, alignment_offset_mm := some m, status := some st } ts
      = { alignment_offset_pixels := p, alignment_offset_mm := m,
          status := st, timestamp := ts } :=
  ⟨rfl, rfl⟩

/-- C4 counterexample: the measured line drawn by drawOverlay for an
UNKNOWN status is lime, the very color of OK, not a neutral gray
class; only the badge color from getStatusColor falls back to gray. -/
theorem C4_unknown_line_color_counterexample :
    overlayLineColor "UNKNOWN" = "lime"
    ∧ overlayLineColor "UNKNOWN" = overlayLineColor "OK"
    ∧ getStatusColor "UNKNOWN" = "#888888" := by
  refine ⟨?_, ?_, ?_⟩ <;> decide

/-- C4 amended: both colors are pure functions of the status alone.
The badge color follows the claimed mapping, gray for anything beyond
the three recognized labels; the measured line maps CRITICAL to red
and WARNING to orange but every other status, OK and UNKNOWN alike,
to lime. -/
theorem C4_status_color_mapping (record : MeasurementRecord) (img : ImageDims) (st : String)
    (hc : st ≠ "CRITICAL") (hw : st ≠ "WARNING") (ho : st ≠ "OK") :
    (drawOverlay record img).measuredLineColor = overlayLineColor record.status
    ∧ overlayLineColor "CRITICAL" = "red"
    ∧ overlayLineColor "WARNING" = "orange"
    ∧ overlayLineColor st = "lime"
    ∧ getStatusColor "CRITICAL" = "#ff4444"
    ∧ getStatusColor "WARNING" = "#ffaa00"
    ∧ getStatusColor "OK" = "#00ff88"
    ∧ getStatusColor st = "#888888" := by
  refine ⟨rfl, by decide, by decide, ?_, by decide, by decide, by decide, ?_⟩
  · simp [overlayLineColor, hc, hw]
  · simp [getStatusColor, hc, hw, ho]

/-- C4 witness: the mapping evaluated at the status UNKNOWN on a
concrete record and frame. -/
theorem C4_status_color_mapping_witness :
    (drawOverlay sampleRecord sampleImg).measuredLineColor = overlayLineColor sampleRecord.status
    ∧ getStatusColor "UNKNOWN" = "#888888" :=
  ⟨(C4_status_color_mapping sampleRecord sampleImg "UNKNOWN"
      (by decide) (by decide) (by decide)).1,
   (C4_status_color_mapping sampleRecord sampleImg "UNKNOWN"
      (by decide) (by decide) (by decide)).2.2.2.2.2.2.2⟩

/-- C5: on every call drawOverlay sizes the surface to the frame
dimensions passed to that call, places the reference line at
surfaceWidth / 2 and the measured line at centerX plus the record
offset in pixels. -/
theorem C5_overlay_geometry (record : MeasurementRecord) (img : ImageDims) :
    (drawOverlay record img).surfaceWidth = img.width
    ∧ (drawOverlay record img).surfaceHeight = img.height
    ∧ (drawOverlay record img).centerX = img.width / 2
    ∧ (drawOverlay record img).detectedX
        = (drawOverlay record img).centerX + record.alignment_offset_pixels := by
  refine ⟨rfl, rfl, rfl, ?_⟩
  by_cases hz : record.alignment_offset_pixels = 0
  · simp [drawOverlay, hz]
  · simp [drawOverlay, hz]

/-- C6: evaluation at the failing input.  After selecting video mode,
loading a video, pressing play and then exiting the mode with the
video still playing, the sampling useEffect interval is gone, yet one
cadence period later captureAndAnalyzeFrame has fired once more and
keeps firing every period: the interval installed by
startFrameCapture on play is never cleared because handleVideoPlay
discards the clearInterval closure it returns. -/
theorem C6_leaked_play_timer :
    effectTimerActive modeExitTrace = false
    ∧ modeExitTrace.playIntervals = 1
    ∧ modeExitTrace.analyzeCalls = 0
    ∧ (tick modeExitTrace).analyzeCalls = 1
    ∧ (ticks 3 modeExitTrace).analyzeCalls = 3 := by
  refine ⟨?_, ?_, ?_, ?_, ?_⟩ <;> decide

/-- C7: a failed camera acquisition leaves the state exactly as it
was: same mode, streaming still false when it was false, no new
sampling timer of either kind; from upload mode no sampling interval
is alive afterwards. -/
theorem C7_webcam_denied_keeps_state (s : AppState)
    (hstream : s.streaming = false) (hmode : s.mode = Mode.upload) :
    startWebcam none s = s
    ∧ (startWebcam none s).mode = s.mode
    ∧ (startWebcam none s).streaming = false
    ∧ (startWebcam none s).playIntervals = s.playIntervals
    ∧ effectTimerActive (startWebcam none s) = effectTimerActive s
    ∧ effectTimerActive (startWebcam none s) = false := by
  refine ⟨rfl, rfl, hstream, rfl, rfl, ?_⟩
  simp [startWebcam, effectTimerActive, hmode]

/-- C7 witness: the denied acquisition evaluated on the initial
upload-mode state. -/
theorem C7_webcam_denied_keeps_state_witness :
    initialAppState.streaming = false
    ∧ initialAppState.mode = Mode.upload
    ∧ startWebcam none initialAppState = initialAppState
    ∧ effectTimerActive (startWebcam none initialAppState) = false :=
  ⟨rfl, rfl,
   (C7_webcam_denied_keeps_state initialAppState rfl rfl).1,
   (C7_webcam_denied_keeps_state initialAppState rfl rfl).2.2.2.2.2⟩

/-- C8: stopWebcam stops every track of the held stream, so zero
active tracks remain, clears the streaming flag and returns to upload
mode; with no stream held the track loop is skipped and the call is a
harmless no-op on the stream field. -/
theorem C8_stop_webcam_releases (s : AppState) :
    activeTrackCount (stopWebcam s) = 0
    ∧ (stopWebcam s).streaming = false
    ∧ (stopWebcam s).mode = Mode.upload
    ∧ (s.webcamStream = none → (stopWebcam s).webcamStream = none) := by
  refine ⟨?_, ?_, ?_, ?_⟩
  · cases hs : s.webcamStream with
    | none => simp [stopWebcam, activeTrackCount, hs]
    | some tracks =>
      simp only [stopWebcam, hs, activeTrackCount]
      induction tracks with
      | nil => rfl
      | cons t ts ih => simp [Track.stop, List.countP_cons, ih]
  · cases hs : s.webcamStream <;> simp [stopWebcam, hs]
  · cases hs : s.webcamStream <;> simp [stopWebcam, hs]
  · intro hs
    simp [stopWebcam, hs]

/-- C8 witness: stopping a live two-track stream and stopping with no
stream held, evaluated concretely. -/
theorem C8_stop_webcam_releases_witness :
    activeTrackCount (stopWebcam webcamSession) = 0
    ∧ (stopWebcam webcamSession).streaming = false
    ∧ (stopWebcam webcamSession).mode = Mode.upload
    ∧ (stopWebcam initialAppState).webcamStream = none :=
  ⟨(C8_stop_webcam_releases webcamSession).1,
   (C8_stop_webcam_releases webcamSession).2.1,
   (C8_stop_webcam_releases webcamSession).2.2.1,
   (C8_stop_webcam_releases initialAppState).2.2.2 rfl⟩

/-- C9: after every successful sendFrame the result record is the
newest history entry; a failing sendFrame preserves that link, and
resetVideo and handleVideoChange re-establish it by clearing both. -/
theorem C9_result_matches_newest_history
    (data : AnalysisResponse) (ts ts2 : ℚ) (img img2 : ImageDims) (s s2 : SessionState)
    (hinv : resultIsNewest s2) :
    resultIsNewest (sendFrame (some data) ts img s)
    ∧ resultIsNewest (sendFrame none ts2 img2 s2)
    ∧ resultIsNewest (resetVideoSession s)
    ∧ resultIsNewest (handleVideoChangeSession s) :=
  ⟨rfl, hinv, rfl, rfl⟩

/-- C9 witness: the invariant evaluated on the fresh session and
across a concrete successful and a concrete failing call. -/
theorem C9_result_matches_newest_history_witness :
    resultIsNewest initialSession
    ∧ resultIsNewest (sendFrame (some malformedResponse) 0 sampleImg initialSession)
    ∧ resultIsNewest (sendFrame none 0 sampleImg initialSession) :=
  ⟨rfl,
   (C9_result_matches_newest_history malformedResponse 0 0 sampleImg sampleImg
      initialSession initialSession rfl).1,
   (C9_result_matches_newest_history malformedResponse 0 0 sampleImg sampleImg
      initialSession initialSession rfl).2.1⟩

/-- C10: sendFrame raises the loading flag on entry and lowers it by
completion on both the success and the failure path; the failure path
changes nothing else. -/
theorem C10_loading_flag_balanced
    (outcome : Option AnalysisResponse) (ts : ℚ) (img : ImageDims) (s : SessionState) :
    (sendFrameBegin s).loading = true
    ∧ (sendFrame outcome ts img s).loading = false
    ∧ sendFrame none ts img s = { s with loading := false } := by
  refine ⟨rfl, ?_, rfl⟩
  cases outcome <;> rfl
